import Mathlib

/-!
Verification of the iphone-price-monitor ingestion-and-merge pipeline.

The pipeline code (`scraper/pipeline/run.py`) and the HTTP client
(`scraper/http_client.py`) are embedded directly from the source.  The
collaborators that the repository keeps in separate modules (the snapshot
model, the deduplicator, the JSON/CSV store and the catalog extractor) are
modelled from the specification, as noted on each definition.  File I/O is
embedded as explicit state passing over a map from paths to file contents;
Python exceptions become `Except` values, and the file-system state is
threaded through the pipeline so that the state at the moment an exception
escapes is observable.
-/

/-- Modelled from the spec: a timezone-aware UTC timestamp (`scraped_at` in
§3); the repository's `models.py` (which stores a Python `datetime`) is not
under `src/`.  Fields are plain naturals; validity bounds are stated
separately in `ValidTime`. -/
structure Datetime where
  year : Nat
  month : Nat
  day : Nat
  hour : Nat
  minute : Nat
  second : Nat
deriving DecidableEq

/-- Calendar-field bounds that every Python `datetime` satisfies
(year 1..9999, month 1..12, day 1..31, hour/minute/second in range). -/
def ValidTime (t : Datetime) : Prop :=
  t.year ≤ 9999 ∧ 1 ≤ t.month ∧ t.month ≤ 12 ∧ 1 ≤ t.day ∧ t.day ≤ 31 ∧
    t.hour ≤ 23 ∧ t.minute ≤ 59 ∧ t.second ≤ 59

instance (t : Datetime) : Decidable (ValidTime t) := by
  unfold ValidTime; infer_instance

/-- ASCII digit character for a digit value. -/
def digitChar (n : Nat) : Char := Char.ofNat (n + 48)

/-- Reads one ASCII digit character back to its value; `none` on a
non-digit. -/
def readDigit (c : Char) : Option Nat :=
  if 48 ≤ c.toNat ∧ c.toNat ≤ 57 then some (c.toNat - 48) else none

/-- Two-digit zero-padded decimal rendering (for month/day/hour/minute/second). -/
def pad2 (n : Nat) : List Char := [digitChar (n / 10 % 10), digitChar (n % 10)]

/-- Four-digit zero-padded decimal rendering (for the year). -/
def pad4 (n : Nat) : List Char :=
  [digitChar (n / 1000 % 10), digitChar (n / 100 % 10),
   digitChar (n / 10 % 10), digitChar (n % 10)]

/-- Modelled from the spec: ISO-8601 rendering with UTC offset, the form the
store persists (§6, "timestamps in ISO-8601 with UTC offset"), as Python's
`datetime.isoformat()` produces for a UTC-aware datetime. -/
def isoChars (t : Datetime) : List Char :=
  pad4 t.year ++ '-' :: pad2 t.month ++ '-' :: pad2 t.day ++
    'T' :: pad2 t.hour ++ ':' :: pad2 t.minute ++ ':' :: pad2 t.second ++
      '+' :: '0' :: '0' :: ':' :: '0' :: ['0']

/-- ISO-8601 string for a UTC datetime. -/
def toIso (t : Datetime) : String := String.mk (isoChars t)

/-- Modelled from the spec: parsing an ISO-8601 UTC timestamp back into its
calendar fields (§4.1: `scraped_at` must parse as a valid timestamp; §9: the
round trip is an explicit contract).  Fixed-position parse of
`YYYY-MM-DDTHH:MM:SS+00:00`. -/
def parseIsoChars : List Char → Option Datetime
  | [y1, y2, y3, y4, a1, m1, m2, a2, d1, d2, a3, h1, h2, a4, n1, n2, a5,
     s1, s2, z1, z2, z3, z4, z5, z6] =>
    if a1 = '-' ∧ a2 = '-' ∧ a3 = 'T' ∧ a4 = ':' ∧ a5 = ':' ∧
        z1 = '+' ∧ z2 = '0' ∧ z3 = '0' ∧ z4 = ':' ∧ z5 = '0' ∧ z6 = '0' then
      match readDigit y1, readDigit y2, readDigit y3, readDigit y4,
          readDigit m1, readDigit m2, readDigit d1, readDigit d2,
          readDigit h1, readDigit h2, readDigit n1, readDigit n2,
          readDigit s1, readDigit s2 with
      | some v1, some v2, some v3, some v4, some w1, some w2, some x1,
        some x2, some u1, some u2, some q1, some q2, some r1, some r2 =>
        some ⟨((v1 * 10 + v2) * 10 + v3) * 10 + v4, w1 * 10 + w2,
          x1 * 10 + x2, u1 * 10 + u2, q1 * 10 + q2, r1 * 10 + r2⟩
      | _, _, _, _, _, _, _, _, _, _, _, _, _, _ => none
    else none
  | _ => none

/-- Parse an ISO-8601 UTC string into a `Datetime`. -/
def parseIso (s : String) : Option Datetime := parseIsoChars s.data

/-- Modelled from the spec: the canonical record type `ProductSnapshot` of
§3 (`models.py` is not under `src/`).  One observation of one product's
listed state at a point in time; the optional descriptive fields
(availability, condition) are opaque strings carried through unchanged. -/
structure ProductSnapshot where
  product_key : String
  title : String
  price : Rat
  currency : String
  url : String
  scraped_at : Datetime
  availability : Option String
  condition : Option String
deriving DecidableEq

/-- Modelled from the spec: the field-for-field mapping a snapshot
serializes to for JSON storage (§4.1 serialization contract, §6 persisted
JSON file); `scraped_at` is carried as an ISO-8601 string. -/
structure SnapDict where
  product_key : String
  title : String
  price : Rat
  currency : String
  url : String
  scraped_at : String
  availability : Option String
  condition : Option String
deriving DecidableEq

/-- Modelled from the spec: `model_dump(mode="json")` on a snapshot — a
field-for-field mapping with the timestamp rendered as ISO-8601 (§4.1). -/
def serializeSnapshot (p : ProductSnapshot) : SnapDict :=
  SnapDict.mk p.product_key p.title p.price p.currency p.url
    (toIso p.scraped_at) p.availability p.condition

/-- Error taxonomy of spec §7.  `validationError` is raised by snapshot
construction, `fetchError`/`parseError` by the extractor, and
`corruptStateError`/`ioError` by the store. -/
inductive ScraperError where
  | validationError : ScraperError
  | fetchError : ScraperError
  | parseError : ScraperError
  | corruptStateError : ScraperError
  | ioError : ScraperError
deriving DecidableEq

/-- Embeds `_dict_to_snapshot` from `scraper/pipeline/run.py` (which calls
`ProductSnapshot.model_validate`); the validation rules are modelled from
spec §4.1: `product_key` must be non-empty, `price` must be a non-negative
number, and `scraped_at` must parse as a valid ISO timestamp, otherwise
construction fails with `ValidationError`. -/
def _dict_to_snapshot (d : SnapDict) : Except ScraperError ProductSnapshot :=
  if d.product_key = "" then Except.error ScraperError.validationError
  else if d.price < 0 then Except.error ScraperError.validationError
  else
    match parseIso d.scraped_at with
    | none => Except.error ScraperError.validationError
    | some t =>
      Except.ok (ProductSnapshot.mk d.product_key d.title d.price d.currency
        d.url t d.availability d.condition)

/-- Snapshots a real run can construct: non-empty key, non-negative price,
calendar-valid timestamp (the invariants §4.1 validation enforces). -/
def ValidSnapshot (p : ProductSnapshot) : Prop :=
  p.product_key ≠ "" ∧ 0 ≤ p.price ∧ ValidTime p.scraped_at

instance (p : ProductSnapshot) : Decidable (ValidSnapshot p) := by
  unfold ValidSnapshot; infer_instance

/-- Dedup key of spec §4.3: only the first occurrence per
`(product_key, scraped_at)` pair is retained (this subsumes the exact
`(product_key, price, scraped_at)` triple match, since extraction stamps one
timestamp per run). -/
def snapKey (s : ProductSnapshot) : String × Datetime :=
  (s.product_key, s.scraped_at)

/-- Worker for the deduplicator: walks the sequence carrying the set of keys
already seen, keeping an element only the first time its key appears. -/
def dedupeAux (seen : List (String × Datetime)) :
    List ProductSnapshot → List ProductSnapshot
  | [] => []
  | s :: rest =>
    if snapKey s ∈ seen then dedupeAux seen rest
    else s :: dedupeAux (snapKey s :: seen) rest

/-- Modelled from the spec: `dedupe_snapshots` of `scraper/pipeline/dedupe.py`
(not under `src/`), per §4.3 — a pure, deterministic, order-preserving
reduction that keeps the first occurrence per `(product_key, scraped_at)`
pair. -/
def dedupe_snapshots (rows : List ProductSnapshot) : List ProductSnapshot :=
  dedupeAux [] rows

/-- Contents a file at a path can hold, at the granularity the spec fixes
for the store (§1 treats physical file I/O as get/put of an ordered-record
collection): a JSON array of serialized records, a CSV table
(header row plus data rows), or bytes that do not parse as either
(`rawBytes`). -/
inductive FileContent where
  | jsonArr : List SnapDict → FileContent
  | csvTable : List String → List (List String) → FileContent
  | rawBytes : String → FileContent
deriving DecidableEq

/-- File-system state: what each path holds, plus an injectable per-path
write-failure flag standing for `IOError`/`PermissionError`-class conditions
on write (spec §4.4, §8 "simulate via injected failure"). -/
structure FileSys where
  files : String → Option FileContent
  writeFails : String → Bool

/-- Modelled from the spec: `read_json_if_exists` of
`scraper/storage/json_store.py` (not under `src/`), per §4.4 `load`: an
absent file yields the empty collection without failing; a present file
that does not parse as the expected JSON array of records fails with
`CorruptStateError`; otherwise the stored list of mappings is returned. -/
def read_json_if_exists (files : String → Option FileContent)
    (path : String) : Except ScraperError (List SnapDict) :=
  match files path with
  | none => Except.ok []
  | some (FileContent.jsonArr ds) => Except.ok ds
  | some _ => Except.error ScraperError.corruptStateError

/-- Modelled from the spec: `write_json` of `scraper/storage/json_store.py`
(not under `src/`), per §4.4 `save_json`: overwrites the target with the
full serialized collection, order preserved, atomically — on an injected
write failure it fails with an `IOError`-class error and the file system is
unchanged. -/
def write_json (fs : FileSys) (path : String)
    (rows : List ProductSnapshot) : Except ScraperError FileSys :=
  if fs.writeFails path then Except.error ScraperError.ioError
  else
    Except.ok (FileSys.mk
      (fun q => if q = path then
          some (FileContent.jsonArr (List.map serializeSnapshot rows))
        else fs.files q)
      fs.writeFails)

/-- Header row of the CSV export: the §3 field names. -/
def csvHeader : List String :=
  ["product_key", "title", "price", "currency", "url", "scraped_at",
   "availability", "condition"]

/-- Flat tabular projection of one snapshot (§4.4 `save_csv`): values as
plain text, timestamp ISO-8601, price as decimal text. -/
def csvRow (p : ProductSnapshot) : List String :=
  [p.product_key, p.title, toString p.price, p.currency, p.url,
   toIso p.scraped_at, p.availability.getD "", p.condition.getD ""]

/-- Modelled from the spec: `write_csv` of `scraper/storage/csv_store.py`
(not under `src/`), per §4.4 `save_csv`: overwrites the target with a
header row and one row per snapshot; on an injected write failure it fails
with an `IOError`-class error and the file system is unchanged. -/
def write_csv (fs : FileSys) (path : String)
    (rows : List ProductSnapshot) : Except ScraperError FileSys :=
  if fs.writeFails path then Except.error ScraperError.ioError
  else
    Except.ok (FileSys.mk
      (fun q => if q = path then
          some (FileContent.csvTable csvHeader (List.map csvRow rows))
        else fs.files q)
      fs.writeFails)

/-- Embeds the list comprehension
`[_dict_to_snapshot(d) for d in existing_dicts]` of `run_pipeline`:
reconstruct the snapshots in order, propagating the exception of the first
dict whose validation fails. -/
def rowsFromDicts : List SnapDict → Except ScraperError (List ProductSnapshot)
  | [] => Except.ok []
  | d :: rest =>
    match _dict_to_snapshot d with
    | Except.error e => Except.error e
    | Except.ok p =>
      match rowsFromDicts rest with
      | Except.error e => Except.error e
      | Except.ok ps => Except.ok (p :: ps)

/-- Embeds `run_pipeline` from `scraper/pipeline/run.py`, line by line: the
extractor's `src.fetch()` result enters as `fetchResult` (the catalog
source is an external collaborator whose module is not under `src/`; a
`FetchError`/`ParseError` it raises is the `Except.error` case);
`read_json_if_exists` loads the existing dicts from `out_json`; each dict
is reconstructed via `_dict_to_snapshot`; the concatenation (existing
first, new second) is reduced by `dedupe_snapshots`; the merged list is
written as JSON to `out_json`, then as CSV to `out_csv`, and returned.
Exceptions propagate as `Except.error`, paired with the file-system state
at the moment the exception escapes. -/
def run_pipeline (fetchResult : Except ScraperError (List ProductSnapshot))
    (out_csv out_json : String) (fs : FileSys) :
    Except ScraperError (List ProductSnapshot) × FileSys :=
  match fetchResult with
  | Except.error e => (Except.error e, fs)
  | Except.ok new_rows =>
    match read_json_if_exists fs.files out_json with
    | Except.error e => (Except.error e, fs)
    | Except.ok existing_dicts =>
      match rowsFromDicts existing_dicts with
      | Except.error e => (Except.error e, fs)
      | Except.ok existing_rows =>
        let combined := dedupe_snapshots (existing_rows ++ new_rows)
        match write_json fs out_json combined with
        | Except.error e => (Except.error e, fs)
        | Except.ok fs1 =>
          match write_csv fs1 out_csv combined with
          | Except.error e => (Except.error e, fs1)
          | Except.ok fs2 => (Except.ok combined, fs2)

/-- Transport-level failures of the external HTTP collaborator: a timeout,
or a connection-level error. -/
inductive HttpFailure where
  | timeout : HttpFailure
  | connectError : HttpFailure
  | httpStatus : Nat → HttpFailure
deriving DecidableEq

/-- An HTTP response as `httpx` delivers it after redirect following:
a status code and a body text. -/
structure HttpResponse where
  status : Nat
  text : String
deriving DecidableEq

/-- Embeds `get_html` from `scraper/http_client.py`.  The `httpx` client is
the external transport, passed as a function from URL and timeout to either
a transport failure (timeout and connection errors raise) or a final
response; `raise_for_status` raises `HTTPStatusError` exactly when the
response status is not a 2xx success, and on success the body text is
returned. -/
def get_html (transport : String → Rat → Except HttpFailure HttpResponse)
    (url : String) (timeout_s : Rat) : Except HttpFailure String :=
  match transport url timeout_s with
  | Except.error e => Except.error e
  | Except.ok r =>
    if 200 ≤ r.status ∧ r.status ≤ 299 then Except.ok r.text
    else Except.error (HttpFailure.httpStatus r.status)

/-- Spec-worded load step of the Store (§4.4 `load` composed with §4.1
reconstruction): read the persisted mappings, then reconstruct each
snapshot, propagating any failure. -/
def loadStage (fs : FileSys) (path : String) :
    Except ScraperError (List ProductSnapshot) :=
  match read_json_if_exists fs.files path with
  | Except.error e => Except.error e
  | Except.ok ds => rowsFromDicts ds

/-- Spec-worded persist step (§4.4, §4.5): save the merged collection as
JSON and then as CSV, with the state at the moment of a failure kept. -/
def persistStage (fs : FileSys) (out_csv out_json : String)
    (merged : List ProductSnapshot) : Except ScraperError FileSys × FileSys :=
  match write_json fs out_json merged with
  | Except.error e => (Except.error e, fs)
  | Except.ok fs1 =>
    match write_csv fs1 out_csv merged with
    | Except.error e => (Except.error e, fs1)
    | Except.ok fs2 => (Except.ok fs2, fs2)

/-- The end-to-end run exactly as §4.5 words it: fetch new snapshots via the
Extractor, load existing snapshots via the Store, concatenate (existing
first, new second), reduce via the Deduplicator, persist the merged result
via the Store (JSON then CSV), and return the merged result to the
caller. -/
def runPipelineSpec (fetchResult : Except ScraperError (List ProductSnapshot))
    (out_csv out_json : String) (fs : FileSys) :
    Except ScraperError (List ProductSnapshot) × FileSys :=
  match fetchResult with
  | Except.error e => (Except.error e, fs)
  | Except.ok fetched =>
    match loadStage fs out_json with
    | Except.error e => (Except.error e, fs)
    | Except.ok existing =>
      let merged := dedupe_snapshots (existing ++ fetched)
      match persistStage fs out_csv out_json merged with
      | (Except.error e, fsAtFailure) => (Except.error e, fsAtFailure)
      | (Except.ok _, fsDone) => (Except.ok merged, fsDone)

/-- Concrete timestamp 2024-01-01T00:00:00+00:00, used by witnesses. -/
def tJan1 : Datetime := Datetime.mk 2024 1 1 0 0 0

/-- Concrete timestamp 2024-01-02T09:30:00+00:00, used by witnesses. -/
def tJan2 : Datetime := Datetime.mk 2024 1 2 9 30 0

/-- Concrete snapshot observed at `tJan1`, used by witnesses. -/
def snapA : ProductSnapshot :=
  ProductSnapshot.mk "iphone-15-128" "iPhone 15 128GB" 799 "USD"
    "https://example.com/iphone-15-128" tJan1 none none

/-- Concrete snapshot for the same product at `tJan2`, used by witnesses. -/
def snapB : ProductSnapshot :=
  ProductSnapshot.mk "iphone-15-128" "iPhone 15 128GB" 779 "USD"
    "https://example.com/iphone-15-128" tJan2 none none

/-- Concrete snapshot for a second product at `tJan2`, used by witnesses. -/
def snapC : ProductSnapshot :=
  ProductSnapshot.mk "iphone-15-256" "iPhone 15 256GB" 899 "USD"
    "https://example.com/iphone-15-256" tJan2 none none

/-- A file system whose JSON path holds the serialized history `[snapA]`,
with no write failures. -/
def fsWithA : FileSys :=
  FileSys.mk
    (fun q => if q = "history.json" then
        some (FileContent.jsonArr [serializeSnapshot snapA])
      else none)
    (fun _ => false)

/-- Like `fsWithA` but writes to the CSV path fail (injected failure). -/
def fsCsvBroken : FileSys :=
  FileSys.mk
    (fun q => if q = "history.json" then
        some (FileContent.jsonArr [serializeSnapshot snapA])
      else none)
    (fun q => q = "history.csv")

/-- A file system with no files and no injected write failures. -/
def fsEmpty : FileSys := FileSys.mk (fun _ => none) (fun _ => false)

/-- A file system whose JSON path holds bytes that do not parse as the
expected schema. -/
def fsRaw : FileSys :=
  FileSys.mk
    (fun q => if q = "history.json" then
        some (FileContent.rawBytes "corrupt") else none)
    (fun _ => false)

/-- A serialized mapping with an empty `product_key`, which §4.1 validation
must reject. -/
def badDict : SnapDict :=
  SnapDict.mk "" "nameless" 1 "USD" "https://example.com/x"
    "2024-01-01T00:00:00+00:00" none none

/-- A file system whose JSON path holds a record that fails §4.1
validation. -/
def fsBadDict : FileSys :=
  FileSys.mk
    (fun q => if q = "history.json" then
        some (FileContent.jsonArr [badDict]) else none)
    (fun _ => false)

/-- The file system `write_json fsEmpty "history.json" [snapA]` produces. -/
def fsAfterWriteA : FileSys :=
  FileSys.mk
    (fun q => if q = "history.json" then
        some (FileContent.jsonArr (List.map serializeSnapshot [snapA]))
      else fsEmpty.files q)
    fsEmpty.writeFails

/-- The transport returning a 200 response, used by the C9 witness. -/
def transportOk : String → Rat → Except HttpFailure HttpResponse :=
  fun _ _ => Except.ok (HttpResponse.mk 200 "<html>catalog</html>")

/-- The transport returning a 404 response, used by the C9 witness. -/
def transportNotFound : String → Rat → Except HttpFailure HttpResponse :=
  fun _ _ => Except.ok (HttpResponse.mk 404 "not found")

/-- The transport that times out, used by the C9 witness. -/
def transportTimesOut : String → Rat → Except HttpFailure HttpResponse :=
  fun _ _ => Except.error HttpFailure.timeout

theorem readDigit_digitChar (d : Nat) (h : d < 10) :
    readDigit (digitChar d) = some d := by
  interval_cases d <;> decide

theorem parseIso_toIso (t : Datetime) (h : ValidTime t) :
    parseIso (toIso t) = some t := by
  obtain ⟨hy, _, hm, _, hd, hh, hn, hs⟩ := h
  obtain ⟨y, mo, d, hh2, mi, se⟩ := t
  simp only [ValidTime] at *
  simp only [parseIso, toIso, isoChars, pad4, pad2, List.cons_append,
    List.nil_append, List.append_assoc]
  simp only [parseIsoChars]
  rw [if_pos (by simp)]
  rw [readDigit_digitChar _ (Nat.mod_lt _ (by norm_num)),
    readDigit_digitChar _ (Nat.mod_lt _ (by norm_num)),
    readDigit_digitChar _ (Nat.mod_lt _ (by norm_num)),
    readDigit_digitChar _ (Nat.mod_lt _ (by norm_num)),
    readDigit_digitChar _ (Nat.mod_lt _ (by norm_num)),
    readDigit_digitChar _ (Nat.mod_lt _ (by norm_num)),
    readDigit_digitChar _ (Nat.mod_lt _ (by norm_num)),
    readDigit_digitChar _ (Nat.mod_lt _ (by norm_num)),
    readDigit_digitChar _ (Nat.mod_lt _ (by norm_num)),
    readDigit_digitChar _ (Nat.mod_lt _ (by norm_num)),
    readDigit_digitChar _ (Nat.mod_lt _ (by norm_num)),
    readDigit_digitChar _ (Nat.mod_lt _ (by norm_num)),
    readDigit_digitChar _ (Nat.mod_lt _ (by norm_num)),
    readDigit_digitChar _ (Nat.mod_lt _ (by norm_num))]
  simp only [Option.some.injEq, Datetime.mk.injEq]
  refine ⟨by omega, by omega, by omega, by omega, by omega, by omega⟩

theorem dict_to_snapshot_serialize (p : ProductSnapshot) (h : ValidSnapshot p) :
    _dict_to_snapshot (serializeSnapshot p) = Except.ok p := by
  obtain ⟨hk, hp, ht⟩ := h
  simp only [_dict_to_snapshot, serializeSnapshot, parseIso_toIso p.scraped_at ht]
  rw [if_neg hk, if_neg (by exact not_lt.mpr hp)]

theorem dedupeAux_congr (l : List ProductSnapshot)
    (u v : List (String × Datetime))
    (h : ∀ s ∈ l, (snapKey s ∈ u ↔ snapKey s ∈ v)) :
    dedupeAux u l = dedupeAux v l := by
  induction l generalizing u v with
  | nil => rfl
  | cons a rest ih =>
    have ha := h a (List.mem_cons_self a rest)
    by_cases hmem : snapKey a ∈ u
    · rw [dedupeAux, if_pos hmem, dedupeAux, if_pos (ha.mp hmem)]
      exact ih u v fun s hs => h s (List.mem_cons_of_mem a hs)
    · rw [dedupeAux, if_neg hmem, dedupeAux, if_neg (fun hv => hmem (ha.mpr hv))]
      refine congrArg _ (ih _ _ fun s hs => ?_)
      simp only [List.mem_cons]
      exact or_congr Iff.rfl (h s (List.mem_cons_of_mem a hs))

theorem dedupeAux_sublist (seen : List (String × Datetime))
    (l : List ProductSnapshot) : List.Sublist (dedupeAux seen l) l := by
  induction l generalizing seen with
  | nil => exact List.Sublist.refl []
  | cons a rest ih =>
    rw [dedupeAux]
    by_cases hmem : snapKey a ∈ seen
    · rw [if_pos hmem]
      exact List.Sublist.trans (ih seen) (List.sublist_cons_self a rest)
    · rw [if_neg hmem]
      exact List.Sublist.cons₂ a (ih (snapKey a :: seen))

theorem dedupeAux_first_occurrence (seen : List (String × Datetime))
    (l : List ProductSnapshot) (s : ProductSnapshot)
    (hs : s ∈ dedupeAux seen l) :
    snapKey s ∉ seen ∧
      List.find? (fun t => decide (snapKey t = snapKey s)) l = some s := by
  induction l generalizing seen with
  | nil => simp [dedupeAux] at hs
  | cons a rest ih =>
    rw [dedupeAux] at hs
    by_cases hmem : snapKey a ∈ seen
    · rw [if_pos hmem] at hs
      obtain ⟨hsn, hfind⟩ := ih seen hs
      have hne : snapKey a ≠ snapKey s := fun he => hsn (he ▸ hmem)
      refine ⟨hsn, ?_⟩
      rw [List.find?_cons_of_neg _ (by simpa using hne), hfind]
    · rw [if_neg hmem] at hs
      rcases List.mem_cons.mp hs with rfl | hs2
      · exact ⟨hmem, by rw [List.find?_cons_of_pos _ (by simp)]⟩
      · obtain ⟨hsn, hfind⟩ := ih (snapKey a :: seen) hs2
        simp only [List.mem_cons, not_or] at hsn
        refine ⟨hsn.2, ?_⟩
        rw [List.find?_cons_of_neg _ (by simpa using fun he => hsn.1 he.symm),
          hfind]

theorem dedupeAux_idem (seen : List (String × Datetime))
    (l : List ProductSnapshot) :
    dedupeAux seen (dedupeAux seen l) = dedupeAux seen l := by
  induction l generalizing seen with
  | nil => rfl
  | cons a rest ih =>
    by_cases hmem : snapKey a ∈ seen
    · rw [dedupeAux, if_pos hmem, ih seen]
    · rw [dedupeAux, if_neg hmem, dedupeAux, if_neg hmem, ih (snapKey a :: seen)]

theorem dedupeAux_keys_nodup (seen : List (String × Datetime))
    (l : List ProductSnapshot) :
    List.Nodup (List.map snapKey (dedupeAux seen l)) ∧
      ∀ k ∈ List.map snapKey (dedupeAux seen l), k ∉ seen := by
  induction l generalizing seen with
  | nil => exact ⟨List.nodup_nil, by simp [dedupeAux]⟩
  | cons a rest ih =>
    rw [dedupeAux]
    by_cases hmem : snapKey a ∈ seen
    · rw [if_pos hmem]; exact ih seen
    · rw [if_neg hmem]
      obtain ⟨hnd, hout⟩ := ih (snapKey a :: seen)
      simp only [List.map_cons, List.nodup_cons]
      refine ⟨⟨fun hin => ?_, hnd⟩, ?_⟩
      · exact (hout _ hin) (List.mem_cons_self _ _)
      · intro k hk
        rcases List.mem_cons.mp hk with rfl | hk2
        · exact hmem
        · exact fun hks => (hout k hk2) (List.mem_cons_of_mem _ hks)

theorem dedupeAux_eq_self (seen : List (String × Datetime))
    (l : List ProductSnapshot) (hnd : List.Nodup (List.map snapKey l))
    (hout : ∀ s ∈ l, snapKey s ∉ seen) : dedupeAux seen l = l := by
  induction l generalizing seen with
  | nil => rfl
  | cons a rest ih =>
    simp only [List.map_cons, List.nodup_cons] at hnd
    rw [dedupeAux, if_neg (hout a (List.mem_cons_self a rest))]
    refine congrArg _ (ih _ hnd.2 fun s hs => ?_)
    simp only [List.mem_cons, not_or]
    refine ⟨fun he => hnd.1 ?_, hout s (List.mem_cons_of_mem a hs)⟩
    exact he ▸ List.mem_map_of_mem snapKey hs

theorem dedupeAux_append (seen : List (String × Datetime))
    (l1 l2 : List ProductSnapshot) :
    dedupeAux seen (l1 ++ l2) =
      dedupeAux seen l1 ++
        dedupeAux (List.map snapKey (dedupeAux seen l1) ++ seen) l2 := by
  induction l1 generalizing seen with
  | nil => simp [dedupeAux]
  | cons a rest ih =>
    by_cases hmem : snapKey a ∈ seen
    · rw [List.cons_append, dedupeAux, if_pos hmem, dedupeAux, if_pos hmem,
        ih seen]
    · rw [List.cons_append, dedupeAux, if_neg hmem, dedupeAux, if_neg hmem,
        ih (snapKey a :: seen), List.cons_append]
      refine congrArg _ (congrArg _ (dedupeAux_congr l2 _ _ fun s _ => ?_))
      simp only [List.map_cons, List.mem_append, List.mem_cons]
      tauto

/-- C4: the deduplicator is idempotent — for every sequence `S` of
snapshots, `dedupe_snapshots (dedupe_snapshots S) = dedupe_snapshots S`. -/
theorem dedupe_snapshots_idempotent (S : List ProductSnapshot) :
    dedupe_snapshots (dedupe_snapshots S) = dedupe_snapshots S :=
  dedupeAux_idem [] S

/-- C5: dedupe preserves the relative order of surviving elements (the
output is a sublist of the input, so retained snapshots are never
reordered), and every survivor is the first occurrence of its
`(product_key, scraped_at)` key in the input. -/
theorem dedupe_snapshots_order_preserving (S : List ProductSnapshot) :
    List.Sublist (dedupe_snapshots S) S ∧
      ∀ s ∈ dedupe_snapshots S,
        List.find? (fun t => decide (snapKey t = snapKey s)) S = some s :=
  ⟨dedupeAux_sublist [] S,
   fun s hs => (dedupeAux_first_occurrence [] S s hs).2⟩

/-- C5 witness: on the concrete input `[snapA, snapB, snapA]` the survivors
keep their input order and each survivor is the first occurrence of its
key. -/
theorem dedupe_snapshots_order_preserving_witness :
    List.Sublist (dedupe_snapshots [snapA, snapB, snapA]) [snapA, snapB, snapA] ∧
      List.find? (fun t => decide (snapKey t = snapKey snapB))
        [snapA, snapB, snapA] = some snapB :=
  ⟨(dedupe_snapshots_order_preserving [snapA, snapB, snapA]).1,
   (dedupe_snapshots_order_preserving [snapA, snapB, snapA]).2 snapB (by decide)⟩

/-- C3: with an existing history `H` (already duplicate-free, as every
persisted history is) and a fresh fetch `F` whose timestamps are all
distinct from every timestamp in `H`, the pipeline's merge
`dedupe_snapshots (H ++ F)` keeps all of `H` followed by the
first-occurrence survivors of `F`; in particular, when `F` has no
internally duplicated `(product_key, scraped_at)` pair the merge has
exactly `n + m` records. -/
theorem dedupe_merge_growth (H F : List ProductSnapshot)
    (hH : dedupe_snapshots H = H)
    (hdisj : ∀ s ∈ F, ∀ t ∈ H, s.scraped_at ≠ t.scraped_at) :
    dedupe_snapshots (H ++ F) = H ++ dedupe_snapshots F ∧
      (List.Nodup (List.map snapKey F) →
        (dedupe_snapshots (H ++ F)).length = H.length + F.length) := by
  unfold dedupe_snapshots at hH ⊢
  have hmain : dedupeAux [] (H ++ F) = H ++ dedupeAux [] F := by
    rw [dedupeAux_append, hH]
    refine congrArg _ (dedupeAux_congr F _ _ fun s hs => ?_)
    simp only [List.append_nil, List.not_mem_nil, iff_false]
    intro hk
    obtain ⟨t, htH, hkey⟩ := List.mem_map.mp hk
    exact hdisj s hs t htH (congrArg Prod.snd hkey).symm
  refine ⟨hmain, fun hnd => ?_⟩
  rw [hmain, List.length_append,
    dedupeAux_eq_self [] F hnd (by simp)]

/-- C3 witness: history `[snapA]` and fetch `[snapB, snapC]` (distinct
timestamps from the history, no internal duplicate pair) merge to exactly
`1 + 2` records. -/
theorem dedupe_merge_growth_witness :
    dedupe_snapshots [snapA] = [snapA] ∧
      (∀ s ∈ [snapB, snapC], ∀ t ∈ [snapA], s.scraped_at ≠ t.scraped_at) ∧
      (dedupe_snapshots ([snapA] ++ [snapB, snapC])).length =
        [snapA].length + [snapB, snapC].length :=
  ⟨by decide, by decide,
   (dedupe_merge_growth [snapA] [snapB, snapC] (by decide) (by decide)).2
     (by decide)⟩

theorem rowsFromDicts_serialize (rows : List ProductSnapshot)
    (h : ∀ s ∈ rows, ValidSnapshot s) :
    rowsFromDicts (List.map serializeSnapshot rows) = Except.ok rows := by
  induction rows with
  | nil => rfl
  | cons a rest ih =>
    rw [List.map_cons]
    simp only [rowsFromDicts]
    rw [dict_to_snapshot_serialize a (h a (List.mem_cons_self a rest)),
      ih fun s hs => h s (List.mem_cons_of_mem a hs)]

/-- C7: snapshot serialization round-trips — deserializing the serialized
field-for-field mapping of any constructible snapshot `p` (non-empty key,
non-negative price, calendar-valid timestamp) yields `Except.ok p`, the
timestamp passing losslessly through its ISO-8601 rendering. -/
theorem snapshot_serialize_roundtrip (p : ProductSnapshot)
    (h : ValidSnapshot p) :
    _dict_to_snapshot (serializeSnapshot p) = Except.ok p :=
  dict_to_snapshot_serialize p h

/-- C7 witness: the round trip evaluated at the concrete snapshot
`snapA`. -/
theorem snapshot_serialize_roundtrip_witness :
    ValidSnapshot snapA ∧
      _dict_to_snapshot (serializeSnapshot snapA) = Except.ok snapA :=
  ⟨by decide, snapshot_serialize_roundtrip snapA (by decide)⟩

/-- C8: the store's load contract — a missing file loads as the empty
collection without failing; a collection persisted by `write_json` loads
back as exactly the persisted sequence; a file whose bytes do not parse as
the expected schema fails with `CorruptStateError`. -/
theorem store_load_contract (fs fs1 : FileSys) (path : String)
    (rows : List ProductSnapshot) :
    (fs.files path = none → read_json_if_exists fs.files path = Except.ok []) ∧
    ((∀ s ∈ rows, ValidSnapshot s) → write_json fs path rows = Except.ok fs1 →
      loadStage fs1 path = Except.ok rows) ∧
    (∀ b, fs.files path = some (FileContent.rawBytes b) →
      read_json_if_exists fs.files path =
        Except.error ScraperError.corruptStateError) := by
  refine ⟨fun h => ?_, fun hv hw => ?_, fun b h => ?_⟩
  · rw [read_json_if_exists, h]
  · rw [write_json] at hw
    by_cases hf : fs.writeFails path
    · rw [if_pos hf] at hw; cases hw
    · rw [if_neg hf] at hw
      cases hw
      rw [loadStage, read_json_if_exists]
      simp only [if_pos rfl]
      exact rowsFromDicts_serialize rows hv
  · rw [read_json_if_exists, h]

/-- C8 witness: the three load behaviors evaluated on concrete file
systems — empty, freshly written with `[snapA]`, and corrupt. -/
theorem store_load_contract_witness :
    read_json_if_exists fsEmpty.files "history.json" = Except.ok [] ∧
      loadStage fsAfterWriteA "history.json" = Except.ok [snapA] ∧
      read_json_if_exists fsRaw.files "history.json" =
        Except.error ScraperError.corruptStateError :=
  ⟨(store_load_contract fsEmpty fsAfterWriteA "history.json" [snapA]).1 rfl,
   (store_load_contract fsEmpty fsAfterWriteA "history.json" [snapA]).2.1
     (by decide) rfl,
   (store_load_contract fsRaw fsAfterWriteA "history.json" [snapA]).2.2
     "corrupt" rfl⟩

/-- C2: any extractor failure, any failure reading the existing store, and
any validation failure of a deserialized record each abort the run with the
error propagated unmodified and the file system untouched — no write to
`out_json` or `out_csv` happens. -/
theorem pipeline_aborts_before_write
    (fetchResult : Except ScraperError (List ProductSnapshot))
    (out_csv out_json : String) (fs : FileSys) :
    (∀ e, fetchResult = Except.error e →
      run_pipeline fetchResult out_csv out_json fs = (Except.error e, fs)) ∧
    (∀ new_rows e, fetchResult = Except.ok new_rows →
      read_json_if_exists fs.files out_json = Except.error e →
      run_pipeline fetchResult out_csv out_json fs = (Except.error e, fs)) ∧
    (∀ new_rows ds e, fetchResult = Except.ok new_rows →
      read_json_if_exists fs.files out_json = Except.ok ds →
      rowsFromDicts ds = Except.error e →
      run_pipeline fetchResult out_csv out_json fs = (Except.error e, fs)) := by
  refine ⟨fun e he => ?_, fun new_rows e hf hread => ?_,
    fun new_rows ds e hf hread hrows => ?_⟩
  · rw [he]; rfl
  · rw [hf]; simp only [run_pipeline, hread]
  · rw [hf]; simp only [run_pipeline, hread, hrows]

/-- C2 witness: the three abort paths evaluated concretely — a fetch
failure, a corrupt store, and a record failing validation; in each case the
error comes back unmodified and the file system is returned unchanged. -/
theorem pipeline_aborts_before_write_witness :
    run_pipeline (Except.error ScraperError.fetchError) "history.csv"
        "history.json" fsEmpty = (Except.error ScraperError.fetchError, fsEmpty) ∧
      run_pipeline (Except.ok [snapB]) "history.csv" "history.json" fsRaw =
        (Except.error ScraperError.corruptStateError, fsRaw) ∧
      run_pipeline (Except.ok [snapB]) "history.csv" "history.json" fsBadDict =
        (Except.error ScraperError.validationError, fsBadDict) :=
  ⟨(pipeline_aborts_before_write (Except.error ScraperError.fetchError)
      "history.csv" "history.json" fsEmpty).1 ScraperError.fetchError rfl,
   (pipeline_aborts_before_write (Except.ok [snapB]) "history.csv"
      "history.json" fsRaw).2.1 [snapB] ScraperError.corruptStateError rfl rfl,
   (pipeline_aborts_before_write (Except.ok [snapB]) "history.csv"
      "history.json" fsBadDict).2.2 [snapB] [badDict]
     ScraperError.validationError rfl rfl rfl⟩

/-- C6: `run_pipeline` performs exactly the sequence §4.5 words — fetch,
load existing, concatenate existing-first new-second, deduplicate, persist
JSON then CSV, return the merged collection — stated as equality with the
spec-worded composition `runPipelineSpec` on every input. -/
theorem run_pipeline_follows_spec_sequence
    (fetchResult : Except ScraperError (List ProductSnapshot))
    (out_csv out_json : String) (fs : FileSys) :
    run_pipeline fetchResult out_csv out_json fs =
      runPipelineSpec fetchResult out_csv out_json fs := by
  cases fetchResult with
  | error e => rfl
  | ok new_rows =>
    simp only [run_pipeline, runPipelineSpec, loadStage, persistStage]
    cases hread : read_json_if_exists fs.files out_json with
    | error e => rfl
    | ok ds =>
      simp only []
      cases hrows : rowsFromDicts ds with
      | error e => rfl
      | ok existing =>
        simp only []
        cases hwj : write_json fs out_json
            (dedupe_snapshots (existing ++ new_rows)) with
        | error e => rfl
        | ok fs1 =>
          simp only []
          cases hwc : write_csv fs1 out_csv
              (dedupe_snapshots (existing ++ new_rows)) with
          | error e => rfl
          | ok fs2 => rfl

/-- C9: `get_html` returns the response body text on a 2xx response, fails
with the status error on any non-success status, and propagates a transport
failure (timeout included) to the caller. -/
theorem get_html_contract
    (transport : String → Rat → Except HttpFailure HttpResponse)
    (url : String) (timeout_s : Rat) :
    (∀ r, transport url timeout_s = Except.ok r → 200 ≤ r.status →
      r.status ≤ 299 → get_html transport url timeout_s = Except.ok r.text) ∧
    (∀ r, transport url timeout_s = Except.ok r →
      (r.status < 200 ∨ 300 ≤ r.status) →
      get_html transport url timeout_s =
        Except.error (HttpFailure.httpStatus r.status)) ∧
    (∀ e, transport url timeout_s = Except.error e →
      get_html transport url timeout_s = Except.error e) := by
  refine ⟨fun r htr h1 h2 => ?_, fun r htr hbad => ?_, fun e htr => ?_⟩
  · simp only [get_html, htr]
    rw [if_pos ⟨h1, h2⟩]
  · simp only [get_html, htr]
    rw [if_neg (by omega)]
  · rw [get_html, htr]

/-- C9 witness: the three transport outcomes evaluated concretely — a 200
response yields its body, a 404 fails with the status error, a timeout
propagates. -/
theorem get_html_contract_witness :
    get_html transportOk "https://example.com/" 20 =
        Except.ok "<html>catalog</html>" ∧
      get_html transportNotFound "https://example.com/" 20 =
        Except.error (HttpFailure.httpStatus 404) ∧
      get_html transportTimesOut "https://example.com/" 20 =
        Except.error HttpFailure.timeout :=
  ⟨(get_html_contract transportOk "https://example.com/" 20).1
      (HttpResponse.mk 200 "<html>catalog</html>") rfl (by decide) (by decide),
   (get_html_contract transportNotFound "https://example.com/" 20).2.1
      (HttpResponse.mk 404 "not found") rfl (Or.inr (by decide)),
   (get_html_contract transportTimesOut "https://example.com/" 20).2.2
      HttpFailure.timeout rfl⟩

/-- C10: `run_pipeline` loads prior history from the very same path
(`out_json`) it later overwrites — on any successful run the merged result
is the dedupe of the deserialized pre-run content of `out_json` (ahead of
the fresh fetch), and the post-run content of `out_json` is the serialized
merged collection. -/
theorem pipeline_accumulates_at_json_path
    (new_rows merged : List ProductSnapshot) (out_csv out_json : String)
    (fs fsFinal : FileSys) (hne : out_csv ≠ out_json)
    (h : run_pipeline (Except.ok new_rows) out_csv out_json fs =
      (Except.ok merged, fsFinal)) :
    (∃ ds existing, read_json_if_exists fs.files out_json = Except.ok ds ∧
      rowsFromDicts ds = Except.ok existing ∧
      merged = dedupe_snapshots (existing ++ new_rows)) ∧
    fsFinal.files out_json =
      some (FileContent.jsonArr (List.map serializeSnapshot merged)) := by
  simp only [run_pipeline] at h
  cases hread : read_json_if_exists fs.files out_json with
  | error e => rw [hread] at h; simp at h
  | ok ds =>
    rw [hread] at h
    simp only [] at h
    cases hrows : rowsFromDicts ds with
    | error e => rw [hrows] at h; simp at h
    | ok existing =>
      rw [hrows] at h
      simp only [] at h
      cases hwj : write_json fs out_json
          (dedupe_snapshots (existing ++ new_rows)) with
      | error e => rw [hwj] at h; simp at h
      | ok fs1 =>
        rw [hwj] at h
        simp only [] at h
        cases hwc : write_csv fs1 out_csv
            (dedupe_snapshots (existing ++ new_rows)) with
        | error e => rw [hwc] at h; simp at h
        | ok fs2 =>
          rw [hwc] at h
          simp only [Prod.mk.injEq, Except.ok.injEq] at h
          obtain ⟨hm, hfs⟩ := h
          subst hm
          subst hfs
          refine ⟨⟨ds, existing, rfl, hrows, rfl⟩, ?_⟩
          rw [write_csv] at hwc
          by_cases hfc : fs1.writeFails out_csv
          · rw [if_pos hfc] at hwc; cases hwc
          · rw [if_neg hfc] at hwc
            cases hwc
            rw [write_json] at hwj
            by_cases hfj : fs.writeFails out_json
            · rw [if_pos hfj] at hwj; cases hwj
            · rw [if_neg hfj] at hwj
              cases hwj
              simp only []
              rw [if_neg (fun hq => hne (Eq.symm hq))]
              simp

/-- C10 witness: a concrete successful run over a store holding `[snapA]`
and a fetch of `[snapB]` — the pre-run JSON content is the history merged
ahead of the fetch, and the post-run JSON content is the serialized merged
collection. -/
theorem pipeline_accumulates_at_json_path_witness :
    (∃ ds existing,
      read_json_if_exists fsWithA.files "history.json" = Except.ok ds ∧
        rowsFromDicts ds = Except.ok existing ∧
        [snapA, snapB] = dedupe_snapshots (existing ++ [snapB])) ∧
      (run_pipeline (Except.ok [snapB]) "history.csv" "history.json"
            fsWithA).2.files "history.json" =
        some (FileContent.jsonArr (List.map serializeSnapshot [snapA, snapB])) :=
  pipeline_accumulates_at_json_path [snapB] [snapA, snapB] "history.csv"
    "history.json" fsWithA
    ((run_pipeline (Except.ok [snapB]) "history.csv" "history.json" fsWithA).2)
    (by decide) rfl

/-- C1 counterexample: a concrete run in which only the CSV write fails —
the run raises the `IOError`-class failure from `write_csv`, yet the
post-run content of the JSON path differs from its pre-run content, because
`run_pipeline` had already overwritten it. -/
theorem csv_failure_json_already_overwritten :
    (run_pipeline (Except.ok [snapB]) "history.csv" "history.json"
        fsCsvBroken).1 = Except.error ScraperError.ioError ∧
      (run_pipeline (Except.ok [snapB]) "history.csv" "history.json"
          fsCsvBroken).2.files "history.json" ≠
        fsCsvBroken.files "history.json" :=
  ⟨rfl, by decide⟩

/-- C1 amended: if the CSV write fails after the earlier stages succeeded,
the run raises the `IOError`-class failure, but the JSON file has already
been overwritten with the serialized merged collection — JSON persists
without CSV; only failures arising before the JSON write leave `out_json`
untouched. -/
theorem csv_failure_keeps_json_write
    (new_rows existing : List ProductSnapshot) (ds : List SnapDict)
    (out_csv out_json : String) (fs : FileSys)
    (hread : read_json_if_exists fs.files out_json = Except.ok ds)
    (hrows : rowsFromDicts ds = Except.ok existing)
    (hjson : fs.writeFails out_json = false)
    (hcsv : fs.writeFails out_csv = true) :
    (run_pipeline (Except.ok new_rows) out_csv out_json fs).1 =
        Except.error ScraperError.ioError ∧
      (run_pipeline (Except.ok new_rows) out_csv out_json fs).2.files out_json =
        some (FileContent.jsonArr (List.map serializeSnapshot
          (dedupe_snapshots (existing ++ new_rows)))) := by
  have hrun : run_pipeline (Except.ok new_rows) out_csv out_json fs =
      (Except.error ScraperError.ioError,
       FileSys.mk
         (fun q => if q = out_json then
             some (FileContent.jsonArr (List.map serializeSnapshot
               (dedupe_snapshots (existing ++ new_rows))))
           else fs.files q)
         fs.writeFails) := by
    simp only [run_pipeline, hread, hrows, write_json, hjson, write_csv,
      Bool.false_eq_true, if_false, hcsv, if_true]
  rw [hrun]
  exact ⟨rfl, by simp⟩

/-- C1 amended witness: the amended statement evaluated on the concrete
broken-CSV file system — the run fails with the `IOError`-class error and
the JSON path holds the merged collection `[snapA, snapB]`. -/
theorem csv_failure_keeps_json_write_witness :
    (run_pipeline (Except.ok [snapB]) "history.csv" "history.json"
        fsCsvBroken).1 = Except.error ScraperError.ioError ∧
      (run_pipeline (Except.ok [snapB]) "history.csv" "history.json"
          fsCsvBroken).2.files "history.json" =
        some (FileContent.jsonArr (List.map serializeSnapshot
          (dedupe_snapshots ([snapA] ++ [snapB])))) :=
  csv_failure_keeps_json_write [snapB] [snapA] [serializeSnapshot snapA]
    "history.csv" "history.json" fsCsvBroken rfl rfl rfl rfl
